import Mathlib

/-!
Verification development for the flex (automatic dynamic fixed-point
scaling) subsystem of the ngraph GPU transformer, a shallow embedding of
`src/ngraph/transformers/flexgputransform.py`.

Real values are modelled as rationals (`ℚ`); device integer storage as
`ℤ`; a device tensor's contents as a `List ℤ` (a full-slice write, the
`value[value > maxval] = maxval` array branch of `__setitem__`).

Parts of the repository that `flexgputransform.py` calls but that are not
under `src/` (the `ngraph.flex` package with `GPUFlexManager` / flex
entries, and the base `gputransform` classes) are modelled from the
specification; each such definition carries a doc comment starting with
`Modelled from the spec:`.
-/

namespace NgraphFlex

/-- Storage dtype descriptor: a `GPUFlex` fixed-point format.  It carries
the total number of storage bits (`storage_bits`, e.g. 16) and its
underlying integer storage dtype, modelled by that dtype's bit width. -/
structure GPUFlex where
  storage_bits : Nat
  storage_dtype : Nat
deriving DecidableEq, Repr

/-- Dtypes that can reach `FlexGPUTransformer.storage_dtype`: either a
`GPUFlex` fixed-point format or an ordinary (non-flex) numpy dtype. -/
inductive Dtype where
  | flex (f : GPUFlex)
  | float32
  | float16
deriving DecidableEq, Repr

/-- Python's `isinstance(dtype, GPUFlex)` test used by `storage_dtype`. -/
def Dtype.isFlex : Dtype → Bool
  | .flex _ => true
  | _ => false

/-- Per-tensor flex entry (spec §3 FlexEntry): identity, current scale,
storage dtype, short history of observed maximum absolute values, and the
autoflex cycle index that last updated it.  The class itself lives in the
`ngraph.flex` package, which is not under `src/`; its fields are taken
from the spec's data model. -/
structure FlexEntry where
  flex_id : Nat
  scale : ℚ
  dtype : GPUFlex
  maxabs_history : List ℤ
  step_index : Nat
deriving DecidableEq, Repr

/-- Modelled from the spec: `FlexEntry.manage_before_computation`
(`ngraph.flex`, not under `src/`).  Per spec §4.1 it "may pre-adjust
scale" for a known upcoming write, and the spec's end-to-end scenario
(§8) has a write leave the scale unchanged in the same cycle ("write
value 50000.0 → ... scale unchanged this cycle"), so the hook is
modelled as leaving the entry unchanged. -/
def FlexEntry.manage_before_computation (e : FlexEntry) (_value : List ℚ) : FlexEntry :=
  e

/-- Modelled from the spec: `FlexEntry.manage_after_computation`
(`ngraph.flex`, not under `src/`).  Per spec §4.1 it "records
`observed_max_abs` into the short history, advances `step_index`". -/
def FlexEntry.manage_after_computation (e : FlexEntry) (maxabs : ℤ) (step : Nat) : FlexEntry :=
  { e with maxabs_history := maxabs :: e.maxabs_history, step_index := step }

/-- Flex-management hooks a device-tensor operation can invoke, recorded
as a trace so that frame properties ("`get` invokes neither hook") are
statable. -/
inductive FlexHook where
  | manage_before
  | manage_after
deriving DecidableEq, Repr

/-- State visible to a `FlexGPUDeviceTensor`: the device integer data, the
buffer's flex entry, and the owning transformer's
`flex_manager.autoflex_count` (read by `__setitem__`). -/
structure FlexTensorState where
  data : List ℤ
  flex_entry : FlexEntry
  autoflex_count : Nat
deriving DecidableEq, Repr

/-- Elementwise clipping, the array branch of `__setitem__`
(`value[value > maxval] = maxval; value[value < minval] = minval`). -/
def clip_array (maxval minval : ℚ) (x : ℚ) : ℚ :=
  let x1 := if x > maxval then maxval else x
  if x1 < minval then minval else x1

/-- Scalar clipping branch of `__setitem__`
(`min(value, maxval) if value >= 0 else max(value, minval)`). -/
def clip_scalar (maxval minval : ℚ) (x : ℚ) : ℚ :=
  if x ≥ 0 then min x maxval else max x minval

/-- Modelled from the spec: the integer store performed by the base
`GPUDeviceTensor.__setitem__` (`ngraph.transformers.gputransform`, not
under `src/`), which casts the clipped quotient to the integer storage
dtype.  Spec §4.5 says "store as integer" and §8 requires the round trip
to be exact to within `scale/2`, so the cast is round-to-nearest. -/
def ratToStorageInt (q : ℚ) : ℤ :=
  round q

/-- Python's `int(...)` truncation toward zero on a rational. -/
def pyInt (q : ℚ) : ℤ :=
  if 0 ≤ q then ⌊q⌋ else -⌊-q⌋

/-- Maximum absolute value of a list of rationals,
`np.amax(np.absolute(value))` (with 0 for the empty tensor). -/
def maxAbsQ (l : List ℚ) : ℚ :=
  l.foldl (fun a x => max a |x|) 0

/-- Read path of `FlexGPUDeviceTensor.get`: device integer contents times
the entry's current scale.  The method mutates nothing, so the post-state
it leaves behind is the input state, and it invokes no flex-management
hook (empty trace). -/
def FlexGPUDeviceTensor.get (s : FlexTensorState) :
    List ℚ × FlexTensorState × List FlexHook :=
  (s.data.map (fun (x : ℤ) => (x : ℚ) * s.flex_entry.scale), s, [])

/-- The clipped integer-domain values a write produces, factored out of
`__setitem__`: divide by the current scale, then clip to
`[-2^bits, 2^bits - 1]` with `bits = storage_bits - 1`. -/
def setitem_clipped_values (s : FlexTensorState) (value : List ℚ) : List ℚ :=
  let entry := s.flex_entry.manage_before_computation value
  let divided := value.map fun v => v / entry.scale
  let bits := entry.dtype.storage_bits - 1
  let maxval : ℚ := 2 ^ bits - 1
  let minval : ℚ := -(2 ^ bits)
  divided.map (clip_array maxval minval)

/-- Write path of `FlexGPUDeviceTensor.__setitem__`: flex management
before the write, divide by the current scale, clip to the storage range,
store the integer representation, then report
`int(np.amax(np.absolute(value)))` of the clipped values to
`manage_after_computation` together with the manager's
`autoflex_count`.  Returns the new state and the trace of
flex-management hooks invoked. -/
def FlexGPUDeviceTensor.setitem (s : FlexTensorState) (value : List ℚ) :
    FlexTensorState × List FlexHook :=
  let entry := s.flex_entry.manage_before_computation value
  let clipped := setitem_clipped_values s value
  let data := clipped.map ratToStorageInt
  let maxabs := pyInt (maxAbsQ clipped)
  let entry := entry.manage_after_computation maxabs s.autoflex_count
  ({ s with data := data, flex_entry := entry },
   [FlexHook.manage_before, FlexHook.manage_after])

/-- Kernel parameter descriptor `FlexScaleDescription`
(`ngraph.transformers.gpu.float_ew2`): associates a kernel argument slot
with a flex entry (by id) and a role flag `is_output`. -/
structure FlexScaleDescription where
  flex_id : Nat
  is_output : Bool
deriving DecidableEq, Repr

/-- A parameter slot of an `ElementWiseKernel`: either a
`FlexScaleDescription` placeholder (replaced by a numeric scale at bind
time) or an already-numeric argument. -/
inductive EWParam where
  | scaleDesc (d : FlexScaleDescription)
  | scalar (v : ℚ)
deriving DecidableEq, Repr

/-- Kind of a compiled kernel, as dispatched on by `isinstance` checks in
`FlexGPUKernelGroup`: an `ElementWiseKernel`, a member of
`non_flex_kernels = (DimShuffleKernel,)`, or one of the flex-specific
kernels (`FlexConv*Kernel`, `FlexFillKernel`, `FlexRngFillKernel`) whose
constructors set `output_flex_ids` themselves. -/
inductive KernelClass where
  | elementWise
  | dimShuffle
  | flexOther
deriving DecidableEq, Repr

/-- A compiled kernel as seen by the flex kernel group: its class, its
parameter list (meaningful for elementwise kernels), its
`output_flex_ids` attribute (preset by the constructor for `flexOther`
kernels, filled in by `_create_output_flex_ids` for the others) and its
`flex_scale_info` attribute (filled in by `_create_ew_flex_scale_info`). -/
structure Kernel where
  cls : KernelClass
  params : List EWParam
  output_flex_ids : List Nat
  flex_scale_info : List (Nat × FlexScaleDescription)
deriving DecidableEq, Repr

/-- Filter step of `_create_ew_flex_scale_info`: keep an enumerated param
exactly when `isinstance(p, FlexScaleDescription)`. -/
def scale_info_step (ip : Nat × EWParam) : Option (Nat × FlexScaleDescription) :=
  match ip.2 with
  | .scaleDesc d => some (ip.1, d)
  | _ => none

/-- The `scale_info` list built by
`FlexGPUKernelGroup._create_ew_flex_scale_info` for one kernel:
`[(i, p) for i, p in enumerate(kernel.params) if isinstance(p, FlexScaleDescription)]`. -/
def scale_info_of_params (params : List EWParam) : List (Nat × FlexScaleDescription) :=
  params.enum.filterMap scale_info_step

/-- Method `_create_ew_flex_scale_info`: for every `ElementWiseKernel` of the
group, record index and description of the flex scale params that need to
be rebound on each call. -/
def create_ew_flex_scale_info (kernels : List Kernel) : List Kernel :=
  kernels.map fun k =>
    match k.cls with
    | .elementWise => { k with flex_scale_info := scale_info_of_params k.params }
    | _ => k

/-- Function `_ew_bind_flex_scales` (attached to `ElementWiseKernel` as
`bind_flex_scales`): for every recorded `(index, flex_scale_desc)` pair,
look up the entry's current scale, take its reciprocal when the
descriptor is an output, and overwrite `kernel.params[index]` with the
number.  `scaleOf` maps a flex id to the entry's current scale (the
source reads `flex_scale_desc.flex_entry.scale`).  The trailing
`FlexPtrDescription.bind_ptr(kernel.params)` of the source resolves
device pointers and does not touch scale slots; it is not modelled. -/
def Kernel.bind_flex_scales (scaleOf : Nat → ℚ) (k : Kernel) : Kernel :=
  { k with
    params := k.flex_scale_info.foldl (fun ps info =>
      let scale := scaleOf info.2.flex_id
      let scale := if info.2.is_output then 1 / scale else scale
      ps.set info.1 (EWParam.scalar scale)) k.params }

/-- Effective numeric argument `bind_flex_scales` writes into one
recorded scale slot: the entry's scale, or its reciprocal for an output
descriptor. -/
def effParam (scaleOf : Nat → ℚ) (info : Nat × FlexScaleDescription) : EWParam :=
  EWParam.scalar (if info.2.is_output then 1 / scaleOf info.2.flex_id
                  else scaleOf info.2.flex_id)

/-- Per-kernel step of `_create_output_flex_ids`: an `ElementWiseKernel`
gets as `output_flex_ids` the flex ids of its params whose
`FlexScaleDescription.is_output` is true; a `non_flex_kernels` member
(`DimShuffleKernel`) gets the empty list; other (flex) kernels keep the
`output_flex_ids` their constructor set. -/
def kernel_with_output_ids (k : Kernel) : Kernel :=
  match k.cls with
  | .elementWise =>
    { k with
      output_flex_ids := k.params.filterMap fun p =>
        match p with
        | .scaleDesc d => if d.is_output then some d.flex_id else none
        | _ => none }
  | .dimShuffle => { k with output_flex_ids := [] }
  | .flexOther => k

/-- Method `_create_output_flex_ids`: walk the group's kernels, fill in each
kernel's `output_flex_ids`, and extend the group-level list with each
kernel's ids.  Returns the updated kernels and the group's
`output_flex_ids`. -/
def create_output_flex_ids (kernels : List Kernel) : List Kernel × List Nat :=
  kernels.foldl
    (fun acc kernel =>
      let kernel := kernel_with_output_ids kernel
      (acc.1 ++ [kernel], acc.2 ++ kernel.output_flex_ids))
    ([], [])

/-- State of the `GPUFlexManager` (`ngraph.flex`, not under `src/`),
with the fields the spec's data model gives it: the fixed-point mode
flag, verbosity, the global `autoflex_count`, the registered entries,
whether device-side scale storage has been allocated, and whether a
diagnostic sink was configured via `set_h5py_file`. -/
structure FlexManagerM where
  fixed_point : Bool
  verbose : Bool
  autoflex_count : Nat
  entries : List FlexEntry
  allocated : Bool
  h5py_file_set : Bool
deriving DecidableEq, Repr

/-- Scale of the registered entry with the given flex id (1 when the id
is unknown; execution only ever looks up registered ids). -/
def FlexManagerM.entryScale (m : FlexManagerM) (fid : Nat) : ℚ :=
  ((m.entries.find? fun e => e.flex_id == fid).map FlexEntry.scale).getD 1

/-- Modelled from the spec: `GPUFlexManager.manage_before_computation`
(`ngraph.flex`, not under `src/`).  Spec §4.4: "scale pre-adjustment for
every entry this group may write"; the adjustment rule itself (spec
§4.2's autoflex algorithm) is left abstract as `adjust`.  It acts only on
flex entries — per spec §4.4 the autoflex counter is advanced by the
kernel-group call, not here. -/
def FlexManagerM.manage_before_computation (adjust : FlexEntry → FlexEntry)
    (m : FlexManagerM) (kernel : Kernel) : FlexManagerM :=
  { m with entries := m.entries.map fun e =>
      if e.flex_id ∈ kernel.output_flex_ids then adjust e else e }

/-- Modelled from the spec: `GPUFlexManager.manage_after_computation`
(`ngraph.flex`, not under `src/`).  Spec §4.4: "magnitude capture" for
the entries the kernel wrote, left abstract as `capture`; like the
pre-hook it never touches `autoflex_count`. -/
def FlexManagerM.manage_after_computation (capture : FlexEntry → FlexEntry)
    (m : FlexManagerM) (kernel : Kernel) : FlexManagerM :=
  { m with entries := m.entries.map fun e =>
      if e.flex_id ∈ kernel.output_flex_ids then capture e else e }

/-- Modelled from the spec: `GPUFlexManager.allocate` (`ngraph.flex`,
not under `src/`).  Spec §4.2: "finalizes device-side storage for all
registered entries' scales; must be called exactly once ...; calling
twice ... is a programming error (fatal, not recoverable)". -/
def FlexManagerM.allocate (m : FlexManagerM) : Except String FlexManagerM :=
  if m.allocated then Except.error "allocate may only be called once"
  else Except.ok { m with allocated := true }

/-- Events of one kernel-group call, in order of occurrence; the `Nat`
identifies the member kernel by its position in the group. -/
inductive FlexEvent where
  | advance_autoflex_count
  | save_diagnostic_data
  | manage_before (i : Nat)
  | bind_flex_scales (i : Nat)
  | kernel_execute (i : Nat)
  | manage_after (i : Nat)
deriving DecidableEq, Repr

/-- A compiled `FlexGPUKernelGroup`: its member kernels and the
group-level `output_flex_ids` computed by `compile_all`. -/
structure FlexGPUKernelGroup where
  kernels : List Kernel
  output_flex_ids : List Nat
deriving DecidableEq, Repr

/-- Method `compile_all` (flex part): after the base compilation, derive
`output_flex_ids` for the kernels and the group and the per-kernel
`flex_scale_info`. -/
def FlexGPUKernelGroup.compile_all (kernels : List Kernel) : FlexGPUKernelGroup :=
  let compiled := create_output_flex_ids kernels
  { kernels := create_ew_flex_scale_info compiled.1, output_flex_ids := compiled.2 }

/-- One iteration of the per-kernel execution loop of the base
`GPUKernelGroup.__call__` (`ngraph.transformers.gputransform`, not under
`src/`; loop shape modelled from spec §4.4) with the flex subclass's
hooks: `setup_kernel_execute` (manager `manage_before_computation`, then
`kernel.bind_flex_scales()`), the kernel execution on the device, then
`after_kernel_execute` (manager `manage_after_computation`). -/
def FlexGPUKernelGroup.kernel_step (adjust capture : FlexEntry → FlexEntry)
    (acc : FlexManagerM × List Kernel × List FlexEvent) (ik : Nat × Kernel) :
    FlexManagerM × List Kernel × List FlexEvent :=
  let m := FlexManagerM.manage_before_computation adjust acc.1 ik.2
  let k := Kernel.bind_flex_scales m.entryScale ik.2
  let m := FlexManagerM.manage_after_computation capture m k
  (m, acc.2.1 ++ [k],
   acc.2.2 ++ [FlexEvent.manage_before ik.1, FlexEvent.bind_flex_scales ik.1,
     FlexEvent.kernel_execute ik.1, FlexEvent.manage_after ik.1])

/-- Method `FlexGPUKernelGroup.__call__`: advance the manager's
`autoflex_count` twice, call `save_diagnostic_data` (which appends to the
diagnostic sink when one is configured and never touches flex state),
then run the base `__call__`, which executes each kernel wrapped in
`setup_kernel_execute` / `after_kernel_execute`.  Returns the new manager
state, the group with rebound kernels, and the event trace of the call. -/
def FlexGPUKernelGroup.call (adjust capture : FlexEntry → FlexEntry)
    (g : FlexGPUKernelGroup) (m : FlexManagerM) :
    FlexManagerM × FlexGPUKernelGroup × List FlexEvent :=
  let m := { m with autoflex_count := m.autoflex_count + 1 }
  let m := { m with autoflex_count := m.autoflex_count + 1 }
  let acc := g.kernels.enum.foldl (FlexGPUKernelGroup.kernel_step adjust capture)
    (m, [],
     [FlexEvent.advance_autoflex_count, FlexEvent.advance_autoflex_count,
       FlexEvent.save_diagnostic_data])
  (acc.1, { g with kernels := acc.2.1 }, acc.2.2)

/-- Modelled from the spec: the device execution entry point around a
kernel-group call.  Spec §4.2: "calling any execution entry point before
allocation is a programming error (fatal, not recoverable)"; the guard
lives in the device layer (`ngraph.flex` / `pycuda`), not under `src/`. -/
def FlexGPUKernelGroup.call_checked (adjust capture : FlexEntry → FlexEntry)
    (g : FlexGPUKernelGroup) (m : FlexManagerM) :
    Except String (FlexManagerM × FlexGPUKernelGroup × List FlexEvent) :=
  if m.allocated then Except.ok (FlexGPUKernelGroup.call adjust capture g m)
  else Except.error "cannot execute before allocate"

/-- Graph passes registered by `FlexGPUTransformer.__init__`. -/
inductive GraphPass where
  | clearTensorDescriptions
  | flexDtypePass
deriving DecidableEq, Repr

/-- State of a `FlexGPUTransformer` relevant to the flex subsystem: the
fixed-point flag, the registered graph passes and the owned flex
manager. -/
structure FlexGPUTransformerState where
  fixed_point : Bool
  graph_passes : List GraphPass
  flex_manager : FlexManagerM
deriving DecidableEq, Repr

/-- Constructor `FlexGPUTransformer.__init__(fixed_point, flex_verbose)`: run the
base constructor (`GPUTransformer`, not under `src/`; modelled from the
spec as plain initialization), register `ClearTensorDescriptions` and
`FlexDtypePass`, and create the `GPUFlexManager` (fresh state: zero
`autoflex_count`, no entries, not yet allocated, no diagnostic sink).
The constructor takes no dtype and performs no dtype validation; it is a
total function. -/
def FlexGPUTransformer.construct (fixed_point flex_verbose : Bool) : FlexGPUTransformerState :=
  { fixed_point := fixed_point
    graph_passes := [GraphPass.clearTensorDescriptions, GraphPass.flexDtypePass]
    flex_manager :=
      { fixed_point := fixed_point, verbose := flex_verbose, autoflex_count := 0,
        entries := [], allocated := false, h5py_file_set := false } }

/-- Method `FlexGPUTransformer.storage_dtype`: the storage dtype of a `GPUFlex`
dtype; any other dtype raises `NotImplementedError`. -/
def FlexGPUTransformer.storage_dtype (dtype : Dtype) : Except String Nat :=
  match dtype with
  | .flex f => Except.ok f.storage_dtype
  | _ => Except.error "NotImplementedError"

/-- Method `FlexGPUTransformer.transform_ordered_ops`: run the base
transformation (`GPUTransformer.transform_ordered_ops`, not under
`src/`; modelled from the spec as succeeding and leaving the flex
manager alone), then allocate the flex manager's device memory. -/
def FlexGPUTransformer.transform_ordered_ops (t : FlexGPUTransformerState) :
    Except String FlexGPUTransformerState :=
  match t.flex_manager.allocate with
  | Except.ok m => Except.ok { t with flex_manager := m }
  | Except.error e => Except.error e

/-- Concrete device-tensor state used in witnesses and counterexamples:
a 16-bit flex entry with scale 1 and one stored element. -/
def tensorA : FlexTensorState :=
  { data := [0]
    flex_entry :=
      { flex_id := 0, scale := 1, dtype := { storage_bits := 16, storage_dtype := 16 },
        maxabs_history := [], step_index := 0 }
    autoflex_count := 0 }

/-- Concrete elementwise-kernel parameter list: a flex input slot, a
numeric slot and a flex output slot. -/
def paramsW : List EWParam :=
  [EWParam.scaleDesc { flex_id := 7, is_output := false }, EWParam.scalar 3,
   EWParam.scaleDesc { flex_id := 9, is_output := true }]

/-- Concrete elementwise kernel after compilation. -/
def kernelW : Kernel :=
  { cls := KernelClass.elementWise, params := paramsW, output_flex_ids := [],
    flex_scale_info := scale_info_of_params paramsW }

/-- Concrete scale environment: entry 9 has scale 4, every other entry
scale 2. -/
def scaleW : Nat → ℚ := fun fid => if fid == 9 then 4 else 2

/-- Concrete data-movement kernel (`DimShuffleKernel`). -/
def kernelD : Kernel :=
  { cls := KernelClass.dimShuffle, params := [], output_flex_ids := [],
    flex_scale_info := [] }

/-- Concrete one-kernel group. -/
def groupD : FlexGPUKernelGroup :=
  { kernels := [kernelD], output_flex_ids := [] }

/-- Concrete allocated manager with no entries. -/
def managerA : FlexManagerM :=
  { fixed_point := false, verbose := false, autoflex_count := 0, entries := [],
    allocated := true, h5py_file_set := false }

/-- Concrete freshly constructed (not yet allocated) manager. -/
def managerF : FlexManagerM :=
  (FlexGPUTransformer.construct false false).flex_manager

/-!
Helper lemmas and the claim theorems.
-/

lemma round_int_bounds {lo hi : ℤ} {x : ℚ} (hlo : (lo : ℚ) ≤ x) (hhi : x ≤ (hi : ℚ)) :
    lo ≤ round x ∧ round x ≤ hi := by
  have hhalf : ⌊(1 : ℚ) / 2⌋ = 0 := by norm_num
  constructor
  · have h1 : (lo : ℚ) + 1 / 2 ≤ x + 1 / 2 := by linarith
    have h2 := Int.floor_mono h1
    rw [Int.floor_int_add, hhalf, add_zero] at h2
    rw [round_eq]
    exact h2
  · have h1 : x + 1 / 2 ≤ (hi : ℚ) + 1 / 2 := by linarith
    have h2 := Int.floor_mono h1
    rw [Int.floor_int_add, hhalf, add_zero] at h2
    rw [round_eq]
    exact h2

lemma clip_array_mem_Icc (maxval minval x : ℚ) (h : minval ≤ maxval) :
    minval ≤ clip_array maxval minval x ∧ clip_array maxval minval x ≤ maxval := by
  simp only [clip_array]
  split_ifs <;> constructor <;> linarith

lemma clip_array_eq_of_mem_Icc {maxval minval x : ℚ} (h1 : minval ≤ x) (h2 : x ≤ maxval) :
    clip_array maxval minval x = x := by
  simp only [clip_array]
  split_ifs <;> linarith

lemma clip_scalar_eq_clip_array (maxval minval x : ℚ) (h1 : minval ≤ 0) (h2 : 0 ≤ maxval) :
    clip_scalar maxval minval x = clip_array maxval minval x := by
  simp only [clip_scalar, clip_array, min_def, max_def]
  split_ifs <;> linarith

lemma one_le_two_pow_q (n : ℕ) : (1 : ℚ) ≤ 2 ^ n := by
  calc (1 : ℚ) = 1 ^ n := (one_pow n).symm
  _ ≤ 2 ^ n := pow_le_pow_left₀ (by norm_num) (by norm_num) n

lemma le_foldl_max (l : List ℚ) (a : ℚ) : a ≤ l.foldl (fun b x => max b |x|) a := by
  induction l generalizing a with
  | nil => exact le_refl a
  | cons y t ih => exact le_trans (le_max_left a |y|) (ih (max a |y|))

lemma foldl_max_abs_le {B : ℚ} (l : List ℚ) (a : ℚ) (ha : a ≤ B)
    (h : ∀ x ∈ l, |x| ≤ B) : l.foldl (fun b x => max b |x|) a ≤ B := by
  induction l generalizing a with
  | nil => exact ha
  | cons y t ih =>
    refine ih (max a |y|) (max_le ha (h y (List.mem_cons_self y t))) ?_
    intro x hx
    exact h x (List.mem_cons_of_mem y hx)

lemma setitem_scale_eq (s : FlexTensorState) (value : List ℚ) :
    (FlexGPUDeviceTensor.setitem s value).1.flex_entry.scale = s.flex_entry.scale := rfl

lemma setitem_data_eq (s : FlexTensorState) (value : List ℚ) :
    (FlexGPUDeviceTensor.setitem s value).1.data =
      (setitem_clipped_values s value).map ratToStorageInt := rfl

lemma get_fst_eq (s : FlexTensorState) :
    (FlexGPUDeviceTensor.get s).1 =
      s.data.map (fun (x : ℤ) => (x : ℚ) * s.flex_entry.scale) := rfl

lemma clipped_values_abs_le (s : FlexTensorState) (value : List ℚ) :
    ∀ x ∈ setitem_clipped_values s value,
      |x| ≤ 2 ^ (s.flex_entry.dtype.storage_bits - 1) := by
  intro x hx
  set bits := s.flex_entry.dtype.storage_bits - 1 with hbits
  have hone : (1 : ℚ) ≤ 2 ^ bits := one_le_two_pow_q bits
  simp only [setitem_clipped_values, FlexEntry.manage_before_computation] at hx
  rcases List.mem_map.1 hx with ⟨q', _, hq'⟩
  have hcl := clip_array_mem_Icc ((2 : ℚ) ^ bits - 1) (-((2 : ℚ) ^ bits)) q' (by linarith)
  rw [hq'] at hcl
  exact abs_le.2 ⟨by linarith [hcl.1], by linarith [hcl.2]⟩

/-- C1 (amended): every write through `__setitem__` stores integers
clipped into the asymmetric range `[-2^bits, 2^bits - 1]`
(`bits = storage_bits - 1`), and the magnitude of a subsequent `read`
never exceeds `scale * 2^bits` (the magnitude of the negative clip
bound; the original bound `scale * (2^bits - 1)` fails at the negative
end).  The pre-state is arbitrary, so this covers every sequence of
writes. -/
theorem setitem_clip_read_bound (s : FlexTensorState) (value : List ℚ)
    (hpos : 0 < s.flex_entry.scale) :
    (∀ x ∈ (FlexGPUDeviceTensor.setitem s value).1.data,
        -(2 ^ (s.flex_entry.dtype.storage_bits - 1)) ≤ x ∧
          x ≤ 2 ^ (s.flex_entry.dtype.storage_bits - 1) - 1) ∧
    ∀ r ∈ (FlexGPUDeviceTensor.get (FlexGPUDeviceTensor.setitem s value).1).1,
        |r| ≤ s.flex_entry.scale * 2 ^ (s.flex_entry.dtype.storage_bits - 1) := by
  set bits := s.flex_entry.dtype.storage_bits - 1 with hbits
  have hone : (1 : ℚ) ≤ 2 ^ bits := one_le_two_pow_q bits
  have hstored : ∀ x ∈ (FlexGPUDeviceTensor.setitem s value).1.data,
      -(2 ^ bits) ≤ x ∧ x ≤ 2 ^ bits - 1 := by
    intro x hx
    rw [setitem_data_eq] at hx
    rcases List.mem_map.1 hx with ⟨q, hq, hqx⟩
    simp only [setitem_clipped_values, FlexEntry.manage_before_computation] at hq
    rcases List.mem_map.1 hq with ⟨q', _, hq'⟩
    have hcl := clip_array_mem_Icc ((2 : ℚ) ^ bits - 1) (-((2 : ℚ) ^ bits)) q' (by linarith)
    rw [hq'] at hcl
    have hlo : ((-(2 ^ bits) : ℤ) : ℚ) ≤ q := by push_cast; linarith [hcl.1]
    have hhi : q ≤ (((2 ^ bits - 1 : ℤ)) : ℚ) := by push_cast; linarith [hcl.2]
    have hrd := round_int_bounds hlo hhi
    subst hqx
    simp only [ratToStorageInt]
    exact hrd
  refine ⟨hstored, ?_⟩
  intro r hr
  rw [get_fst_eq, setitem_scale_eq] at hr
  rcases List.mem_map.1 hr with ⟨x, hx, hxr⟩
  have hb := hstored x hx
  have habs : |x| ≤ (2 : ℤ) ^ bits := abs_le.2 ⟨by linarith [hb.1], by linarith [hb.2]⟩
  have habsq : |(x : ℚ)| ≤ (2 : ℚ) ^ bits := by
    have h2 : ((|x| : ℤ) : ℚ) ≤ (((2 : ℤ) ^ bits : ℤ) : ℚ) := Int.cast_le.2 habs
    rw [Int.cast_abs] at h2
    push_cast at h2
    exact h2
  rw [← hxr, abs_mul, abs_of_pos hpos]
  calc |(x : ℚ)| * s.flex_entry.scale ≤ (2 : ℚ) ^ bits * s.flex_entry.scale :=
        mul_le_mul_of_nonneg_right habsq (le_of_lt hpos)
  _ = s.flex_entry.scale * 2 ^ bits := mul_comm _ _

/-- C1 (counterexample to the claim as stated): on a 16-bit entry with
scale 1 (`bits = 15`), writing `-40000` clips to the negative bound
`-2^15 = -32768`, and the subsequent read has magnitude
`32768 > scale * (2^15 - 1) = 32767`. -/
theorem setitem_clip_read_bound_counterexample :
    (FlexGPUDeviceTensor.get (FlexGPUDeviceTensor.setitem tensorA [-40000]).1).1 =
        [-32768] ∧
    tensorA.flex_entry.scale = 1 ∧ tensorA.flex_entry.dtype.storage_bits = 16 ∧
    ¬ |(-32768 : ℚ)| ≤
        tensorA.flex_entry.scale *
          (2 ^ (tensorA.flex_entry.dtype.storage_bits - 1) - 1) := by
  refine ⟨?_, rfl, rfl, by norm_num [tensorA]⟩
  norm_num [FlexGPUDeviceTensor.get, FlexGPUDeviceTensor.setitem, setitem_clipped_values,
    FlexEntry.manage_before_computation, FlexEntry.manage_after_computation, clip_array,
    ratToStorageInt, tensorA, round_eq]

/-- C1 witness: the amended bound instantiated at the counterexample
input. -/
theorem setitem_clip_read_bound_witness :
    0 < tensorA.flex_entry.scale ∧
    ((∀ x ∈ (FlexGPUDeviceTensor.setitem tensorA [-40000]).1.data,
        -(2 ^ (tensorA.flex_entry.dtype.storage_bits - 1)) ≤ x ∧
          x ≤ 2 ^ (tensorA.flex_entry.dtype.storage_bits - 1) - 1) ∧
      ∀ r ∈ (FlexGPUDeviceTensor.get (FlexGPUDeviceTensor.setitem tensorA [-40000]).1).1,
        |r| ≤ tensorA.flex_entry.scale *
          2 ^ (tensorA.flex_entry.dtype.storage_bits - 1)) :=
  ⟨by norm_num [tensorA], setitem_clip_read_bound tensorA [-40000] (by norm_num [tensorA])⟩



/-- C2: for a value `v` whose quotient `v / scale` lies in the storage
integer range, write-then-read returns `r` with `|r - v| ≤ scale / 2`
(one unit of integer quantization error). -/
theorem setitem_get_round_trip (s : FlexTensorState) (v : ℚ)
    (hpos : 0 < s.flex_entry.scale)
    (hlo : -(2 ^ (s.flex_entry.dtype.storage_bits - 1) : ℚ) ≤ v / s.flex_entry.scale)
    (hhi : v / s.flex_entry.scale ≤ 2 ^ (s.flex_entry.dtype.storage_bits - 1) - 1) :
    ∃ r, (FlexGPUDeviceTensor.get (FlexGPUDeviceTensor.setitem s [v]).1).1 = [r] ∧
      |r - v| ≤ s.flex_entry.scale / 2 := by
  have hdata : (FlexGPUDeviceTensor.setitem s [v]).1.data =
      [round (v / s.flex_entry.scale)] := by
    rw [setitem_data_eq]
    simp only [setitem_clipped_values, FlexEntry.manage_before_computation, List.map,
      ratToStorageInt]
    rw [clip_array_eq_of_mem_Icc hlo hhi]
  refine ⟨(round (v / s.flex_entry.scale) : ℚ) * s.flex_entry.scale, ?_, ?_⟩
  · rw [get_fst_eq, setitem_scale_eq, hdata]
    rfl
  · have hv : v / s.flex_entry.scale * s.flex_entry.scale = v :=
      div_mul_cancel₀ v (ne_of_gt hpos)
    have habs := abs_sub_round (v / s.flex_entry.scale)
    calc |(round (v / s.flex_entry.scale) : ℚ) * s.flex_entry.scale - v|
        = |((round (v / s.flex_entry.scale) : ℚ) - v / s.flex_entry.scale) *
            s.flex_entry.scale| := by rw [sub_mul, hv]
    _ = |(round (v / s.flex_entry.scale) : ℚ) - v / s.flex_entry.scale| *
          s.flex_entry.scale := by rw [abs_mul, abs_of_pos hpos]
    _ = |v / s.flex_entry.scale - (round (v / s.flex_entry.scale) : ℚ)| *
          s.flex_entry.scale := by rw [abs_sub_comm]
    _ ≤ 1 / 2 * s.flex_entry.scale :=
          mul_le_mul_of_nonneg_right habs (le_of_lt hpos)
    _ = s.flex_entry.scale / 2 := by ring

/-- C2 witness: on a 16-bit entry with scale 1, writing `5/2` reads back
as `3`, within `scale / 2 = 1/2`. -/
theorem setitem_get_round_trip_witness :
    (0 < tensorA.flex_entry.scale ∧
      -(2 ^ (tensorA.flex_entry.dtype.storage_bits - 1) : ℚ) ≤
        5 / 2 / tensorA.flex_entry.scale ∧
      5 / 2 / tensorA.flex_entry.scale ≤
        2 ^ (tensorA.flex_entry.dtype.storage_bits - 1) - 1) ∧
    ∃ r, (FlexGPUDeviceTensor.get (FlexGPUDeviceTensor.setitem tensorA [5 / 2]).1).1 =
        [r] ∧ |r - 5 / 2| ≤ tensorA.flex_entry.scale / 2 :=
  ⟨⟨by norm_num [tensorA], by norm_num [tensorA], by norm_num [tensorA]⟩,
    setitem_get_round_trip tensorA (5 / 2) (by norm_num [tensorA]) (by norm_num [tensorA])
      (by norm_num [tensorA])⟩

/-- C9: `get` is adaptation-free — it returns the scaled values, leaves
the whole tensor/flex state (scale, history, autoflex count) unchanged
and invokes no flex-management hook; a write through `__setitem__`, in
contrast, invokes both hooks. -/
theorem get_adaptation_free (s : FlexTensorState) :
    (FlexGPUDeviceTensor.get s).2.1 = s ∧
    (FlexGPUDeviceTensor.get s).2.1.flex_entry.scale = s.flex_entry.scale ∧
    (FlexGPUDeviceTensor.get s).2.1.flex_entry.maxabs_history =
      s.flex_entry.maxabs_history ∧
    (FlexGPUDeviceTensor.get s).2.1.autoflex_count = s.autoflex_count ∧
    (FlexGPUDeviceTensor.get s).2.2 = ([] : List FlexHook) ∧
    ∀ value, (FlexGPUDeviceTensor.setitem s value).2 =
      [FlexHook.manage_before, FlexHook.manage_after] :=
  ⟨rfl, rfl, rfl, rfl, rfl, fun _ => rfl⟩

/-- C10: the maximum-absolute value a write reports to
`manage_after_computation` is `int(np.amax(np.absolute(...)))` of the
already-clipped values, hence an integer between 0 and
`2^(storage_bits - 1)` however large the requested `value / scale` is. -/
theorem setitem_reported_maxabs (s : FlexTensorState) (value : List ℚ) :
    (FlexGPUDeviceTensor.setitem s value).1.flex_entry.maxabs_history =
        pyInt (maxAbsQ (setitem_clipped_values s value)) :: s.flex_entry.maxabs_history ∧
    0 ≤ pyInt (maxAbsQ (setitem_clipped_values s value)) ∧
    pyInt (maxAbsQ (setitem_clipped_values s value)) ≤
      2 ^ (s.flex_entry.dtype.storage_bits - 1) := by
  set bits := s.flex_entry.dtype.storage_bits - 1 with hbits
  have hq0 : 0 ≤ maxAbsQ (setitem_clipped_values s value) := le_foldl_max _ 0
  have hqB : maxAbsQ (setitem_clipped_values s value) ≤ (2 : ℚ) ^ bits := by
    refine foldl_max_abs_le _ 0 (by positivity) ?_
    exact clipped_values_abs_le s value
  refine ⟨rfl, ?_, ?_⟩
  · rw [pyInt, if_pos hq0]
    exact Int.floor_nonneg.2 hq0
  · rw [pyInt, if_pos hq0]
    have hcast : maxAbsQ (setitem_clipped_values s value) ≤ (((2 : ℤ) ^ bits : ℤ) : ℚ) := by
      push_cast
      exact hqB
    have hfl := Int.floor_mono hcast
    rw [Int.floor_intCast] at hfl
    exact hfl



lemma kernel_step_count (adjust capture : FlexEntry → FlexEntry)
    (acc : FlexManagerM × List Kernel × List FlexEvent) (ik : Nat × Kernel) :
    (FlexGPUKernelGroup.kernel_step adjust capture acc ik).1.autoflex_count =
      acc.1.autoflex_count := rfl

lemma foldl_kernel_step_count (adjust capture : FlexEntry → FlexEntry)
    (l : List (Nat × Kernel)) (acc : FlexManagerM × List Kernel × List FlexEvent) :
    (l.foldl (FlexGPUKernelGroup.kernel_step adjust capture) acc).1.autoflex_count =
      acc.1.autoflex_count := by
  induction l generalizing acc with
  | nil => rfl
  | cons x t ih =>
    rw [List.foldl_cons, ih, kernel_step_count]

/-- C3: one kernel-group call advances the manager's `autoflex_count` by
exactly 2, whatever the member kernels and whatever the (abstract)
per-entry adjustment and capture behaviour of the flex hooks, which act
only on flex entries. -/
theorem group_call_advances_autoflex_by_two (adjust capture : FlexEntry → FlexEntry)
    (g : FlexGPUKernelGroup) (m : FlexManagerM) :
    (FlexGPUKernelGroup.call adjust capture g m).1.autoflex_count =
      m.autoflex_count + 2 := by
  simp only [FlexGPUKernelGroup.call]
  rw [foldl_kernel_step_count]

lemma foldl_kernel_step_trace (adjust capture : FlexEntry → FlexEntry)
    (l : List (Nat × Kernel)) (acc : FlexManagerM × List Kernel × List FlexEvent) :
    (l.foldl (FlexGPUKernelGroup.kernel_step adjust capture) acc).2.2 =
      acc.2.2 ++ (l.map fun ik =>
        [FlexEvent.manage_before ik.1, FlexEvent.bind_flex_scales ik.1,
         FlexEvent.kernel_execute ik.1, FlexEvent.manage_after ik.1]).flatten := by
  induction l generalizing acc with
  | nil => simp
  | cons x t ih =>
    rw [List.foldl_cons, ih]
    simp [FlexGPUKernelGroup.kernel_step]

/-- C6 (amended): the trace of one kernel-group call is: two autoflex
counter advances, then the diagnostic persistence attempt, then for each
member kernel in order `manage_before_computation`, `bind_flex_scales`,
kernel execution, `manage_after_computation`.  Diagnostic persistence
thus precedes the kernels' magnitude capture rather than following it. -/
theorem group_call_event_order (adjust capture : FlexEntry → FlexEntry)
    (g : FlexGPUKernelGroup) (m : FlexManagerM) :
    (FlexGPUKernelGroup.call adjust capture g m).2.2 =
      [FlexEvent.advance_autoflex_count, FlexEvent.advance_autoflex_count,
       FlexEvent.save_diagnostic_data] ++
      (g.kernels.enum.map fun ik =>
        [FlexEvent.manage_before ik.1, FlexEvent.bind_flex_scales ik.1,
         FlexEvent.kernel_execute ik.1, FlexEvent.manage_after ik.1]).flatten := by
  simp only [FlexGPUKernelGroup.call]
  rw [foldl_kernel_step_trace]

/-- C6 (counterexample to the claim as stated): for a one-kernel group,
`save_diagnostic_data` is the third event of the call — before the
kernel's execution and magnitude capture — so diagnostic persistence is
not last in the per-call sequence. -/
theorem group_call_diagnostics_not_last :
    (FlexGPUKernelGroup.call id id groupD managerA).2.2 =
      [FlexEvent.advance_autoflex_count, FlexEvent.advance_autoflex_count,
       FlexEvent.save_diagnostic_data, FlexEvent.manage_before 0,
       FlexEvent.bind_flex_scales 0, FlexEvent.kernel_execute 0,
       FlexEvent.manage_after 0] ∧
    ((FlexGPUKernelGroup.call id id groupD managerA).2.2).getLast? ≠
      some FlexEvent.save_diagnostic_data := by
  constructor
  · rfl
  · intro h
    rw [show (FlexGPUKernelGroup.call id id groupD managerA).2.2 =
      [FlexEvent.advance_autoflex_count, FlexEvent.advance_autoflex_count,
       FlexEvent.save_diagnostic_data, FlexEvent.manage_before 0,
       FlexEvent.bind_flex_scales 0, FlexEvent.kernel_execute 0,
       FlexEvent.manage_after 0] from rfl] at h
    simp [List.getLast?] at h



lemma bind_flex_scales_eq_foldl (scaleOf : Nat → ℚ) (k : Kernel) :
    Kernel.bind_flex_scales scaleOf k =
      { k with params := (k.flex_scale_info.foldl
          (fun ps info => ps.set info.1 (effParam scaleOf info)) k.params) } := rfl

lemma foldl_set_length (f : Nat × FlexScaleDescription → EWParam)
    (l : List (Nat × FlexScaleDescription)) (ps : List EWParam) :
    (l.foldl (fun ps info => ps.set info.1 (f info)) ps).length = ps.length := by
  induction l generalizing ps with
  | nil => rfl
  | cons x t ih => rw [List.foldl_cons, ih, List.length_set]

lemma foldl_set_get_of_not_mem (f : Nat × FlexScaleDescription → EWParam)
    (l : List (Nat × FlexScaleDescription)) (ps : List EWParam) (j : Nat)
    (hj : j ∉ l.map Prod.fst) :
    (l.foldl (fun ps info => ps.set info.1 (f info)) ps)[j]? = ps[j]? := by
  induction l generalizing ps with
  | nil => rfl
  | cons x t ih =>
    simp only [List.map_cons, List.mem_cons, not_or] at hj
    rw [List.foldl_cons, ih _ hj.2, List.getElem?_set_ne]
    exact fun h => hj.1 h.symm

lemma foldl_set_get_of_mem (f : Nat × FlexScaleDescription → EWParam)
    (l : List (Nat × FlexScaleDescription)) (ps : List EWParam) (i : Nat)
    (d : FlexScaleDescription) (hmem : (i, d) ∈ l) (hnd : (l.map Prod.fst).Nodup)
    (hlt : ∀ p ∈ l, p.1 < ps.length) :
    (l.foldl (fun ps info => ps.set info.1 (f info)) ps)[i]? = some (f (i, d)) := by
  induction l generalizing ps with
  | nil => cases hmem
  | cons x t ih =>
    simp only [List.map_cons, List.nodup_cons] at hnd
    rcases List.mem_cons.1 hmem with heq | htail
    · subst heq
      rw [List.foldl_cons, foldl_set_get_of_not_mem _ _ _ _ hnd.1,
        List.getElem?_set_eq_of_lt]
      exact hlt (i, d) (List.mem_cons_self _ _)
    · rw [List.foldl_cons]
      refine ih _ htail hnd.2 ?_
      intro p hp
      rw [List.length_set]
      exact hlt p (List.mem_cons_of_mem x hp)



lemma scale_info_from_mem (params : List EWParam) (n : Nat)
    (p : Nat × FlexScaleDescription)
    (hp : p ∈ (List.enumFrom n params).filterMap scale_info_step) :
    n ≤ p.1 ∧ p.1 < n + params.length := by
  induction params generalizing n with
  | nil => cases hp
  | cons q ps ih =>
    cases q with
    | scaleDesc d =>
      simp only [List.enumFrom, List.filterMap_cons, scale_info_step] at hp
      rcases List.mem_cons.1 hp with heq | htail
      · subst heq
        simp only [List.length_cons]
        omega
      · have := ih (n + 1) htail
        simp only [List.length_cons]
        omega
    | scalar v =>
      simp only [List.enumFrom, List.filterMap_cons, scale_info_step] at hp
      have := ih (n + 1) hp
      simp only [List.length_cons]
      omega

lemma scale_info_from_nodup (params : List EWParam) (n : Nat) :
    (((List.enumFrom n params).filterMap scale_info_step).map Prod.fst).Nodup := by
  induction params generalizing n with
  | nil => exact List.nodup_nil
  | cons q ps ih =>
    cases q with
    | scaleDesc d =>
      simp only [List.enumFrom, List.filterMap_cons, scale_info_step, List.map_cons,
        List.nodup_cons]
      refine ⟨?_, ih (n + 1)⟩
      intro hmem
      rcases List.mem_map.1 hmem with ⟨p, hp, hfst⟩
      have := (scale_info_from_mem ps (n + 1) p hp).1
      omega
    | scalar v =>
      simp only [List.enumFrom, List.filterMap_cons, scale_info_step]
      exact ih (n + 1)

lemma scale_info_lt (params : List EWParam) (p : Nat × FlexScaleDescription)
    (hp : p ∈ scale_info_of_params params) : p.1 < params.length := by
  have h := scale_info_from_mem params 0 p hp
  omega

lemma scale_info_nodup (params : List EWParam) :
    ((scale_info_of_params params).map Prod.fst).Nodup :=
  scale_info_from_nodup params 0

/-- C4: for every parameter slot recorded in a kernel's
`flex_scale_info` (as built by `_create_ew_flex_scale_info`),
`bind_flex_scales` overwrites the slot with the entry's scale for an
input descriptor and with the reciprocal `1/scale` for an output
descriptor. -/
theorem bind_flex_scales_role (scaleOf : Nat → ℚ) (k : Kernel)
    (hinfo : k.flex_scale_info = scale_info_of_params k.params) :
    ∀ i d, (i, d) ∈ k.flex_scale_info →
      (Kernel.bind_flex_scales scaleOf k).params[i]? =
        some (EWParam.scalar (if d.is_output then 1 / scaleOf d.flex_id
          else scaleOf d.flex_id)) := by
  intro i d hmem
  have hnd : (k.flex_scale_info.map Prod.fst).Nodup := by
    rw [hinfo]
    exact scale_info_nodup k.params
  have hlt : ∀ p ∈ k.flex_scale_info, p.1 < k.params.length := by
    rw [hinfo]
    exact fun p hp => scale_info_lt k.params p hp
  have h := foldl_set_get_of_mem (effParam scaleOf) k.flex_scale_info k.params i d
    hmem hnd hlt
  rw [bind_flex_scales_eq_foldl]
  exact h

/-- C4 witness: binding the concrete kernel `kernelW` under the scale
environment `scaleW` puts `1/4` (the reciprocal of entry 9's scale) into
the output slot 2. -/
theorem bind_flex_scales_role_witness :
    kernelW.flex_scale_info = scale_info_of_params kernelW.params ∧
    ((2 : Nat), ({ flex_id := 9, is_output := true } : FlexScaleDescription)) ∈
      kernelW.flex_scale_info ∧
    (Kernel.bind_flex_scales scaleW kernelW).params[2]? =
      some (EWParam.scalar (1 / 4)) := by
  have hmem : ((2 : Nat), ({ flex_id := 9, is_output := true } : FlexScaleDescription)) ∈
      kernelW.flex_scale_info := by
    simp [kernelW, scale_info_of_params, scale_info_step, paramsW, List.enum, List.enumFrom]
  refine ⟨rfl, hmem, ?_⟩
  have h := bind_flex_scales_role scaleW kernelW rfl 2
    { flex_id := 9, is_output := true } hmem
  simpa [scaleW] using h

lemma create_output_flex_ids_snd (ks : List Kernel) (acc : List Kernel × List Nat) :
    (ks.foldl
      (fun acc kernel =>
        let kernel := kernel_with_output_ids kernel
        (acc.1 ++ [kernel], acc.2 ++ kernel.output_flex_ids)) acc).2 =
      acc.2 ++ (ks.map fun k => (kernel_with_output_ids k).output_flex_ids).flatten := by
  induction ks generalizing acc with
  | nil => simp
  | cons k t ih =>
    rw [List.foldl_cons, ih]
    simp

lemma kernel_with_output_ids_ids (k : Kernel) :
    (kernel_with_output_ids k).output_flex_ids =
      (match k.cls with
      | KernelClass.elementWise => k.params.filterMap fun p =>
          match p with
          | EWParam.scaleDesc d => if d.is_output then some d.flex_id else none
          | _ => none
      | KernelClass.dimShuffle => []
      | KernelClass.flexOther => k.output_flex_ids) := by
  cases hcls : k.cls <;> simp [kernel_with_output_ids, hcls]

/-- C5: after `compile_all`, the group's `output_flex_ids` is the
concatenation (union), over all member kernels in order, of that
kernel's output flex ids: for an `ElementWiseKernel` the flex ids of its
params whose `FlexScaleDescription.is_output` is true, for a
`non_flex_kernels` member (`DimShuffleKernel`) the empty list, and for a
flex kernel the ids its constructor set. -/
theorem compile_all_output_flex_ids (ks : List Kernel) :
    (FlexGPUKernelGroup.compile_all ks).output_flex_ids =
      (ks.map fun k =>
        match k.cls with
        | KernelClass.elementWise => k.params.filterMap fun p =>
            match p with
            | EWParam.scaleDesc d => if d.is_output then some d.flex_id else none
            | _ => none
        | KernelClass.dimShuffle => []
        | KernelClass.flexOther => k.output_flex_ids).flatten := by
  simp only [FlexGPUKernelGroup.compile_all, create_output_flex_ids]
  rw [create_output_flex_ids_snd, List.nil_append]
  simp only [kernel_with_output_ids_ids]

/-- C7: on a not-yet-allocated manager, `allocate` succeeds once and
fails fatally the second time; every execution entry point fails before
allocation; and `transform_ordered_ops`, which performs the allocation,
succeeds once per transformer and fails if repeated. -/
theorem allocate_once_and_gated (m : FlexManagerM) (h : m.allocated = false) :
    (FlexManagerM.allocate m = Except.ok { m with allocated := true } ∧
      FlexManagerM.allocate { m with allocated := true } =
        Except.error "allocate may only be called once") ∧
    (∀ adjust capture g, FlexGPUKernelGroup.call_checked adjust capture g m =
      Except.error "cannot execute before allocate") ∧
    ∀ t : FlexGPUTransformerState, t.flex_manager = m →
      FlexGPUTransformer.transform_ordered_ops t =
          Except.ok { t with flex_manager := { m with allocated := true } } ∧
        FlexGPUTransformer.transform_ordered_ops
            { t with flex_manager := { m with allocated := true } } =
          Except.error "allocate may only be called once" := by
  refine ⟨⟨?_, ?_⟩, ?_, ?_⟩
  · simp [FlexManagerM.allocate, h]
  · simp [FlexManagerM.allocate]
  · intro adjust capture g
    simp [FlexGPUKernelGroup.call_checked, h]
  · intro t ht
    constructor
    · simp [FlexGPUTransformer.transform_ordered_ops, FlexManagerM.allocate, ht, h]
    · simp [FlexGPUTransformer.transform_ordered_ops, FlexManagerM.allocate]

/-- C7 witness: the allocation discipline instantiated at the manager of
a freshly constructed transformer. -/
theorem allocate_once_and_gated_witness :
    managerF.allocated = false ∧
    ((FlexManagerM.allocate managerF = Except.ok { managerF with allocated := true } ∧
      FlexManagerM.allocate { managerF with allocated := true } =
        Except.error "allocate may only be called once") ∧
    (∀ adjust capture g, FlexGPUKernelGroup.call_checked adjust capture g managerF =
      Except.error "cannot execute before allocate") ∧
    ∀ t : FlexGPUTransformerState, t.flex_manager = managerF →
      FlexGPUTransformer.transform_ordered_ops t =
          Except.ok { t with flex_manager := { managerF with allocated := true } } ∧
        FlexGPUTransformer.transform_ordered_ops
            { t with flex_manager := { managerF with allocated := true } } =
          Except.error "allocate may only be called once") :=
  ⟨rfl, allocate_once_and_gated managerF rfl⟩

/-- C8 (amended): every dtype that is not a `GPUFlex` instance is
rejected with `NotImplementedError` when `storage_dtype` resolves it
(during transformation), fatally. -/
theorem storage_dtype_rejects_non_flex (d : Dtype) (h : d.isFlex = false) :
    FlexGPUTransformer.storage_dtype d = Except.error "NotImplementedError" := by
  cases d with
  | flex f => simp [Dtype.isFlex] at h
  | float32 => rfl
  | float16 => rfl

/-- C8 witness: the non-flex dtype `float32` is rejected by
`storage_dtype`. -/
theorem storage_dtype_rejects_non_flex_witness :
    Dtype.float32.isFlex = false ∧
    FlexGPUTransformer.storage_dtype Dtype.float32 =
      Except.error "NotImplementedError" :=
  ⟨rfl, storage_dtype_rejects_non_flex Dtype.float32 rfl⟩

/-- C8 (counterexample to the claim as stated): transformer construction
is a total function that takes no dtype and performs no dtype
validation — with the non-flex dtype `float32` in play, construction
still succeeds (returning the ordinary fresh state), so the failure
does not happen "at transformer construction"; it is raised only when
`storage_dtype` is called on the dtype. -/
theorem storage_dtype_not_checked_at_construction :
    Dtype.float32.isFlex = false ∧
    FlexGPUTransformer.construct false false =
      { fixed_point := false,
        graph_passes := [GraphPass.clearTensorDescriptions, GraphPass.flexDtypePass],
        flex_manager := { fixed_point := false, verbose := false, autoflex_count := 0,
                          entries := [], allocated := false, h5py_file_set := false } } ∧
    FlexGPUTransformer.storage_dtype Dtype.float32 =
      Except.error "NotImplementedError" :=
  ⟨rfl, rfl, rfl⟩

end NgraphFlex
